import Mathlib

/-!
# Configuration reconciliation handler of the link022 agent

A shallow embedding of `agent/gnmi/handler.go` (`handleSet`, `handleSetInternal`).

The handler is sequential code that talks to external collaborators (the ygot
serializer, the configuration locator, the command runner, the cleanup and
apply services, the file sink, the logger and the clock).  The collaborators
are the fields of an environment `Env`; the ones that touch the device are
state transformers on an abstract world state `σ`.  Every call of a
collaborator either returns or raises a Go runtime fault (`Res.panic`).  A run
of the handler yields its outcome, the list of the calls it completed (with
their results) and the final world state.
-/

namespace Link022

/-- A Go `error` value, identified with the text its `Error()` method gives. -/
structure GoError where
  msg : String
deriving DecidableEq, Repr

/-- Result of a call that may raise a Go panic instead of returning; the panic
value is kept as the text that `%v` prints for it. -/
inductive Res (α : Type) where
  | val (a : α)
  | panic (r : String)
deriving DecidableEq, Repr

/-- The read-only identity `context.GetDeviceConfig()` hands out. -/
structure DeviceConfig where
  Hostname : String
  ETHINTFName : String
  WLANINTFName : String
deriving DecidableEq, Repr

/-- A value of the interface type `ygot.ValidatedGoStruct`: either a
`*ocstruct.Device` (a pointer, `none` when it is nil) or anything else. -/
inductive ValidatedGoStruct (D : Type) where
  | device (officeAPs : Option D)
  | other
deriving DecidableEq, Repr

/-- One completed call to a collaborator, with its arguments and its result. -/
inductive Event (D A G ρ : Type) where
  | EmitJSON (officeAPs : Option D) (res : Res (String × Option GoError))
  | Info (text : String)
  | FindAPConfig (officeAPs : Option D) (hostname : String) (res : Res (Option A))
  | VLANOnIntf (intf : String) (res : Res (List Int × Option GoError))
  | VLANIDs (apConfig : A) (res : Res (List Int))
  | CleanupConfig (intf : String) (vlanIDs : List Int) (res : Res ρ)
  | Sleep (d : Int)
  | ApplyConfig (apConfig : A) (gasket : G) (resetIntf : Bool) (ethIntf wlanIntf : String)
      (res : Res (Option GoError))
  | SaveToFile (folder file content : String) (res : Res (Option GoError))
deriving DecidableEq, Repr

/-- The collaborators of the handler.  `D`, `A`, `G` are the types
`ocstruct.Device`, the access point configuration and `ocstruct.Gasket`
point to; `ρ` is whatever `service.CleanupConfig` gives back. -/
structure Env (σ D A G ρ : Type) where
  EmitJSON : Option D → Res (String × Option GoError)
  GetDeviceConfig : DeviceConfig
  FindAPConfig : Option D → String → Res (Option A)
  VLANOnIntf : String → σ → Res (List Int × Option GoError) × σ
  VLANIDs : A → Res (List Int)
  CleanupConfig : String → List Int → σ → Res ρ × σ
  Sleep : Int → σ → σ
  Gasket : D → G
  ApplyConfig : A → G → Bool → String → String → σ → Res (Option GoError) × σ
  SaveToFile : String → String → String → σ → Res (Option GoError) × σ
  runFolder : String
  apConfigFileName : String

/-- How a call of `handleSetInternal` ends: it returns an `error` (`none` is
nil) or it is unwound by a panic. -/
inductive Outcome where
  | returned (err : Option GoError)
  | panicked (r : String)
deriving DecidableEq, Repr

/-- A finished run: outcome, completed calls in order, final world state. -/
structure Run (σ D A G ρ : Type) where
  outcome : Outcome
  trace : List (Event D A G ρ)
  world : σ

/-- `time.Second`, in nanoseconds. -/
def Second : Int := 1000000000

/-- What `%v` prints for a `[]int`. -/
def fmtInts (l : List Int) : String :=
  "[" ++ " ".intercalate (l.map toString) ++ "]"

/-- The Go runtime's text for a nil pointer dereference. -/
def nilDeref : String := "runtime error: invalid memory address or nil pointer dereference"

/-- Modelled from the spec: `ocutil.VLANChanged`, which is not part of the
available sources.  The spec's change detector says a reset is required iff
the two VLAN sets differ as unordered collections. -/
def VLANChanged (existingVLANIDs updatedVLANIDs : List Int) : Bool :=
  !(existingVLANIDs.all (fun v => updatedVLANIDs.contains v)
    && updatedVLANIDs.all (fun v => existingVLANIDs.contains v))

section Handler

variable {σ D A G ρ : Type}

/-- The tail of `handleSetInternal` from the apply step on (handler.go, lines 101-113). -/
def applyAndSave (env : Env σ D A G ρ) (officeAPs : Option D) (configString : String)
    (apConfig : A) (resetIntf : Bool) (tr : List (Event D A G ρ)) (w : σ) : Run σ D A G ρ :=
  let deviceConfig := env.GetDeviceConfig
  match officeAPs with
  | none => ⟨.panicked nilDeref, tr, w⟩
  | some dev =>
    match env.ApplyConfig apConfig (env.Gasket dev) resetIntf deviceConfig.ETHINTFName
        deviceConfig.WLANINTFName w with
    | (.panic r, w1) =>
      ⟨.panicked r, tr ++ [.ApplyConfig apConfig (env.Gasket dev) resetIntf
        deviceConfig.ETHINTFName deviceConfig.WLANINTFName (.panic r)], w1⟩
    | (.val (some err), w1) =>
      ⟨.returned (some err), tr ++ [.ApplyConfig apConfig (env.Gasket dev) resetIntf
        deviceConfig.ETHINTFName deviceConfig.WLANINTFName (.val (some err))], w1⟩
    | (.val none, w1) =>
      let tr1 := tr ++ [.ApplyConfig apConfig (env.Gasket dev) resetIntf
        deviceConfig.ETHINTFName deviceConfig.WLANINTFName (.val none),
        .Info "Device configuration succeeded."]
      match env.SaveToFile env.runFolder env.apConfigFileName configString w1 with
      | (.panic r, w2) =>
        ⟨.panicked r, tr1 ++ [.SaveToFile env.runFolder env.apConfigFileName configString
          (.panic r)], w2⟩
      | (.val (some err), w2) =>
        ⟨.returned (some err), tr1 ++ [.SaveToFile env.runFolder env.apConfigFileName
          configString (.val (some err))], w2⟩
      | (.val none, w2) =>
        ⟨.returned none, tr1 ++ [.SaveToFile env.runFolder env.apConfigFileName configString
          (.val none), .Info "Saved the configuration to file."], w2⟩

/-- The middle of `handleSetInternal`: VLAN query, change detection, cleanup
and settle wait (handler.go, lines 78-99), followed by `applyAndSave`. -/
def checkAndCleanup (env : Env σ D A G ρ) (officeAPs : Option D) (configString : String)
    (apConfig : A) (tr : List (Event D A G ρ)) (w : σ) : Run σ D A G ρ :=
  let deviceConfig := env.GetDeviceConfig
  match env.VLANOnIntf deviceConfig.ETHINTFName w with
  | (.panic r, w1) => ⟨.panicked r, tr ++ [.VLANOnIntf deviceConfig.ETHINTFName (.panic r)], w1⟩
  | (.val (existingVLANIDs, some err), w1) =>
    ⟨.returned (some ⟨"unable to fetch the existing VLAN with error (" ++ err.msg
        ++ "), may need to reboot the device."⟩),
      tr ++ [.VLANOnIntf deviceConfig.ETHINTFName (.val (existingVLANIDs, some err))], w1⟩
  | (.val (existingVLANIDs, none), w1) =>
    let tr1 := tr ++ [.VLANOnIntf deviceConfig.ETHINTFName (.val (existingVLANIDs, none))]
    match env.VLANIDs apConfig with
    | .panic r => ⟨.panicked r, tr1 ++ [.VLANIDs apConfig (.panic r)], w1⟩
    | .val newVLANIDs =>
      let changed := VLANChanged existingVLANIDs newVLANIDs
      let changedVLANIDs : List Int := if changed then existingVLANIDs else []
      let resetIntf : Bool := if changed then true else false
      let note : String :=
        if changed then
          "VLAN changes (" ++ fmtInts existingVLANIDs ++ " -> " ++ fmtInts newVLANIDs
            ++ ") on interface " ++ deviceConfig.ETHINTFName ++ "."
        else "No VLAN change on interface " ++ deviceConfig.ETHINTFName ++ "."
      let tr2 := tr1 ++ [.VLANIDs apConfig (.val newVLANIDs), .Info note]
      match env.CleanupConfig deviceConfig.ETHINTFName changedVLANIDs w1 with
      | (.panic r, w2) =>
        ⟨.panicked r, tr2 ++ [.CleanupConfig deviceConfig.ETHINTFName changedVLANIDs (.panic r)],
          w2⟩
      | (.val c, w2) =>
        applyAndSave env officeAPs configString apConfig resetIntf
          (tr2 ++ [.CleanupConfig deviceConfig.ETHINTFName changedVLANIDs (.val c),
            .Sleep (5 * Second)])
          (env.Sleep (5 * Second) w2)

/-- The function `handleSetInternal` of handler.go. -/
def handleSetInternal (env : Env σ D A G ρ) (updatedConfig : ValidatedGoStruct D) (w : σ) :
    Run σ D A G ρ :=
  match updatedConfig with
  | .other => ⟨.returned (some ⟨"new configuration has invalid type"⟩), [], w⟩
  | .device officeAPs =>
    match env.EmitJSON officeAPs with
    | .panic r => ⟨.panicked r, [.EmitJSON officeAPs (.panic r)], w⟩
    | .val (configString, some err) =>
      ⟨.returned (some err), [.EmitJSON officeAPs (.val (configString, some err))], w⟩
    | .val (configString, none) =>
      let tr : List (Event D A G ρ) :=
        [.EmitJSON officeAPs (.val (configString, none)),
         .Info ("Received a new configuration:\n" ++ configString ++ "\n")]
      let deviceConfig := env.GetDeviceConfig
      match env.FindAPConfig officeAPs deviceConfig.Hostname with
      | .panic r => ⟨.panicked r, tr ++ [.FindAPConfig officeAPs deviceConfig.Hostname (.panic r)], w⟩
      | .val none =>
        ⟨.returned (some ⟨"not found the configuration for this AP (hostname = "
            ++ deviceConfig.Hostname ++ ")"⟩),
          tr ++ [.FindAPConfig officeAPs deviceConfig.Hostname (.val none)], w⟩
      | .val (some apConfig) =>
        checkAndCleanup env officeAPs configString apConfig
          (tr ++ [.FindAPConfig officeAPs deviceConfig.Hostname (.val (some apConfig))]) w

/-- What `recover()` gives in the deferred function: the panic value when the
call is being unwound by a panic, nil otherwise (a panic carries a value that
is not nil, as every runtime fault does). -/
def recover : Outcome → Option String
  | .returned _ => none
  | .panicked r => some r

/-- The function `handleSet` of handler.go: the named result `err` takes the
value `handleSetInternal` returns, then the deferred function overwrites it
when `recover()` is not nil. -/
def handleSet (env : Env σ D A G ρ) (updatedConfig : ValidatedGoStruct D) (w : σ) :
    Option GoError × List (Event D A G ρ) × σ :=
  let run := handleSetInternal env updatedConfig w
  let err : Option GoError :=
    match run.outcome with
    | .returned e => e
    | .panicked _ => none
  let err : Option GoError :=
    match recover run.outcome with
    | some r => some ⟨"panic detected when handling updated config: " ++ r⟩
    | none => err
  (err, run.trace, run.world)

/-- Apply a function to the value a call returned. -/
def Res.map {α β : Type} (f : α → β) : Res α → Res β
  | .val a => .val (f a)
  | .panic r => .panic r

/-- The same environment, except that what `service.CleanupConfig` gives back
is replaced by its image under `f`. -/
def Env.withCleanupResult {ρ2 : Type} (env : Env σ D A G ρ) (f : ρ → ρ2) : Env σ D A G ρ2 where
  EmitJSON := env.EmitJSON
  GetDeviceConfig := env.GetDeviceConfig
  FindAPConfig := env.FindAPConfig
  VLANOnIntf := env.VLANOnIntf
  VLANIDs := env.VLANIDs
  CleanupConfig := fun intf vlanIDs w =>
    ((env.CleanupConfig intf vlanIDs w).1.map f, (env.CleanupConfig intf vlanIDs w).2)
  Sleep := env.Sleep
  Gasket := env.Gasket
  ApplyConfig := env.ApplyConfig
  SaveToFile := env.SaveToFile
  runFolder := env.runFolder
  apConfigFileName := env.apConfigFileName

/-! ## The calls of a run, stage by stage

The lists below are the values the call record takes along the straight-line
path of `handleSetInternal`; they are used to state the case analysis
of a run. -/

/-- Calls made once the tree has been serialized and logged. -/
def trSerialized (officeAPs : Option D) (configString : String) : List (Event D A G ρ) :=
  [.EmitJSON officeAPs (.val (configString, none)),
   .Info ("Received a new configuration:\n" ++ configString ++ "\n")]

/-- Calls made once the access point configuration has been found. -/
def trLocated (env : Env σ D A G ρ) (officeAPs : Option D) (configString : String)
    (apConfig : A) : List (Event D A G ρ) :=
  trSerialized officeAPs configString
    ++ [.FindAPConfig officeAPs env.GetDeviceConfig.Hostname (.val (some apConfig))]

/-- Calls made once the VLAN query has succeeded. -/
def trQueried (env : Env σ D A G ρ) (officeAPs : Option D) (configString : String)
    (apConfig : A) (existingVLANIDs : List Int) : List (Event D A G ρ) :=
  trLocated env officeAPs configString apConfig
    ++ [.VLANOnIntf env.GetDeviceConfig.ETHINTFName (.val (existingVLANIDs, none))]

/-- The log line of change detection. -/
def changeNote (intf : String) (existingVLANIDs newVLANIDs : List Int) : String :=
  if VLANChanged existingVLANIDs newVLANIDs then
    "VLAN changes (" ++ fmtInts existingVLANIDs ++ " -> " ++ fmtInts newVLANIDs
      ++ ") on interface " ++ intf ++ "."
  else "No VLAN change on interface " ++ intf ++ "."

/-- The VLAN list handed to `service.CleanupConfig`. -/
def changedVLANIDs (existingVLANIDs newVLANIDs : List Int) : List Int :=
  if VLANChanged existingVLANIDs newVLANIDs then existingVLANIDs else []

/-- Calls made once change detection is done. -/
def trDetected (env : Env σ D A G ρ) (officeAPs : Option D) (configString : String)
    (apConfig : A) (existingVLANIDs newVLANIDs : List Int) : List (Event D A G ρ) :=
  trQueried env officeAPs configString apConfig existingVLANIDs
    ++ [.VLANIDs apConfig (.val newVLANIDs),
        .Info (changeNote env.GetDeviceConfig.ETHINTFName existingVLANIDs newVLANIDs)]

/-- Calls made once cleanup has returned and the settle wait is over. -/
def trSettled (env : Env σ D A G ρ) (officeAPs : Option D) (configString : String)
    (apConfig : A) (existingVLANIDs newVLANIDs : List Int) (c : ρ) : List (Event D A G ρ) :=
  trDetected env officeAPs configString apConfig existingVLANIDs newVLANIDs
    ++ [.CleanupConfig env.GetDeviceConfig.ETHINTFName
          (changedVLANIDs existingVLANIDs newVLANIDs) (.val c),
        .Sleep (5 * Second)]

/-- The call of `service.ApplyConfig` a run makes, with its result. -/
def applyCall (env : Env σ D A G ρ) (dev : D) (apConfig : A)
    (existingVLANIDs newVLANIDs : List Int) (res : Res (Option GoError)) : Event D A G ρ :=
  .ApplyConfig apConfig (env.Gasket dev) (VLANChanged existingVLANIDs newVLANIDs)
    env.GetDeviceConfig.ETHINTFName env.GetDeviceConfig.WLANINTFName res

/-- The call of `syscmd.SaveToFile` a run makes, with its result. -/
def saveCall (env : Env σ D A G ρ) (configString : String) (res : Res (Option GoError)) :
    Event D A G ρ :=
  .SaveToFile env.runFolder env.apConfigFileName configString res

/-- Calls made once the configuration has been applied. -/
def trApplied (env : Env σ D A G ρ) (dev : D) (configString : String)
    (apConfig : A) (existingVLANIDs newVLANIDs : List Int) (c : ρ) : List (Event D A G ρ) :=
  trSettled env (some dev) configString apConfig existingVLANIDs newVLANIDs c
    ++ [applyCall env dev apConfig existingVLANIDs newVLANIDs (.val none),
        .Info "Device configuration succeeded."]

/-- The assumption on the device services under which two successive runs are
compared: after `service.ApplyConfig` has succeeded on the uplink interface
and the configuration has been saved, the VLAN query on that interface
succeeds and reports exactly the VLANs of the applied configuration. -/
def AppliesVLANs (env : Env σ D A G ρ) : Prop :=
  ∀ a g b wl w w1 nv cs w2,
    env.ApplyConfig a g b env.GetDeviceConfig.ETHINTFName wl w = (.val none, w1) →
    env.VLANIDs a = .val nv →
    env.SaveToFile env.runFolder env.apConfigFileName cs w1 = (.val none, w2) →
    ∃ ex w3, env.VLANOnIntf env.GetDeviceConfig.ETHINTFName w2 = (.val (ex, none), w3)
      ∧ ∀ v, v ∈ ex ↔ v ∈ nv

end Handler

/-! ## A concrete device for examples

The world state is the list of VLANs bound to the uplink interface; a device
tree is a list of (hostname, VLAN list) pairs behind a possibly nil pointer. -/

/-- An environment in which the services behave like a working device: the
query reports the bound VLANs, cleanup unbinds the VLANs it is given, apply
binds the VLANs of the configuration. -/
def demoEnv : Env (List Int) (List (String × List Int)) (List Int) Unit Unit where
  EmitJSON := fun _ => .val ("cfg", none)
  GetDeviceConfig := ⟨"ap1", "eth0", "wlan0"⟩
  FindAPConfig := fun d h => .val (d.bind fun l => l.lookup h)
  VLANOnIntf := fun _ w => (.val (w, none), w)
  VLANIDs := fun a => .val a
  CleanupConfig := fun _ vl w => (.val (), w.filter fun v => !vl.contains v)
  Sleep := fun _ w => w
  Gasket := fun _ => ()
  ApplyConfig := fun a _ _ _ _ _ => (.val none, a)
  SaveToFile := fun _ _ _ w => (.val none, w)
  runFolder := "/var/run/link022"
  apConfigFileName := "link022.conf"

/-- An environment whose VLAN query fails. -/
def brokenQueryEnv : Env (List Int) (List (String × List Int)) (List Int) Unit Unit :=
  { demoEnv with VLANOnIntf := fun _ w => (.val ([], some ⟨"exit status 1"⟩), w) }

/-- An environment whose apply service raises a runtime fault. -/
def faultyApplyEnv : Env (List Int) (List (String × List Int)) (List Int) Unit Unit :=
  { demoEnv with ApplyConfig := fun _ _ _ _ _ w => (.panic "index out of range", w) }

/-- An environment whose apply service reports an error. -/
def failingApplyEnv : Env (List Int) (List (String × List Int)) (List Int) Unit Unit :=
  { demoEnv with ApplyConfig := fun _ _ _ _ _ w => (.val (some ⟨"hostapd failed"⟩), w) }

/-- A device whose apply service succeeds and binds, besides the VLANs of the
configuration, VLAN 1 to the uplink interface. -/
def extraVlanEnv : Env (List Int) (List (String × List Int)) (List Int) Unit Unit :=
  { demoEnv with ApplyConfig := fun a _ _ _ _ _ => (.val none, 1 :: a) }

/-! ## Change detection -/

theorem VLANChanged_eq_false_iff (e d : List Int) :
    VLANChanged e d = false ↔ ∀ v, v ∈ e ↔ v ∈ d := by
  simp only [VLANChanged, Bool.not_eq_false', Bool.and_eq_true, List.all_eq_true,
    List.contains_eq_any_beq, List.any_eq_true, beq_iff_eq, exists_eq_right']
  constructor
  · rintro ⟨h1, h2⟩ v
    exact ⟨h1 v, h2 v⟩
  · intro h
    exact ⟨fun v hv => (h v).1 hv, fun v hv => (h v).2 hv⟩

theorem VLANChanged_eq_true_iff (e d : List Int) :
    VLANChanged e d = true ↔ ∃ v, (v ∈ e ∧ v ∉ d) ∨ (v ∈ d ∧ v ∉ e) := by
  rw [← Bool.not_eq_false, VLANChanged_eq_false_iff]
  constructor
  · intro h
    by_contra hc
    apply h
    intro v
    constructor
    · intro hv
      by_contra hd
      exact hc ⟨v, Or.inl ⟨hv, hd⟩⟩
    · intro hv
      by_contra he
      exact hc ⟨v, Or.inr ⟨hv, he⟩⟩
  · rintro ⟨v, h | h⟩ hall
    · exact h.2 ((hall v).1 h.1)
    · exact h.2 ((hall v).2 h.1)

theorem VLANChanged_changed_sets : VLANChanged [10, 20] [20, 30] = true := by decide

theorem VLANChanged_reordered_sets : VLANChanged [10, 20] [20, 10] = false := by decide

/-! ## Shape of the tail of a run -/

section Tail

variable {σ D A G ρ : Type}

/-- The apply-and-save tail only ever appends to the calls made so far. -/
theorem applyAndSave_trace_append (env : Env σ D A G ρ) (officeAPs : Option D)
    (configString : String) (apConfig : A) (resetIntf : Bool) (tr : List (Event D A G ρ))
    (w : σ) :
    ∃ rest, (applyAndSave env officeAPs configString apConfig resetIntf tr w).trace
      = tr ++ rest := by
  unfold applyAndSave
  cases officeAPs with
  | none => exact ⟨[], by simp⟩
  | some dev =>
    simp only
    split
    · exact ⟨_, rfl⟩
    · exact ⟨_, rfl⟩
    · split
      · exact ⟨_, List.append_assoc _ _ _⟩
      · exact ⟨_, List.append_assoc _ _ _⟩
      · exact ⟨_, List.append_assoc _ _ _⟩

/-- With a device pointer that is not nil, the tail starts with the call of
`service.ApplyConfig`, which gets the reset flag it was handed. -/
theorem applyAndSave_trace_some (env : Env σ D A G ρ) (dev : D)
    (configString : String) (apConfig : A) (resetIntf : Bool) (tr : List (Event D A G ρ))
    (w : σ) :
    ∃ res rest, (applyAndSave env (some dev) configString apConfig resetIntf tr w).trace
      = tr ++ (.ApplyConfig apConfig (env.Gasket dev) resetIntf
          env.GetDeviceConfig.ETHINTFName env.GetDeviceConfig.WLANINTFName res :: rest) := by
  unfold applyAndSave
  simp only
  split
  · exact ⟨_, [], rfl⟩
  · exact ⟨_, [], rfl⟩
  · split
    · exact ⟨_, _, by simp only [List.append_assoc, List.cons_append, List.nil_append]; rfl⟩
    · exact ⟨_, _, by simp only [List.append_assoc, List.cons_append, List.nil_append]; rfl⟩
    · exact ⟨_, _, by simp only [List.append_assoc, List.cons_append, List.nil_append]; rfl⟩

end Tail

/-! ## Case analysis on a run -/

section Stages

variable {σ D A G ρ : Type}

/-- Case analysis on a run of `handleSetInternal`: the fifteen ways a run can
go, each with the results of the calls that lead to it and the run it gives. -/
theorem handleSetInternal_elim (env : Env σ D A G ρ) (updatedConfig : ValidatedGoStruct D)
    (w : σ) (motive : Run σ D A G ρ → Prop)
    (wrongShape : updatedConfig = .other →
      motive ⟨.returned (some ⟨"new configuration has invalid type"⟩), [], w⟩)
    (jsonPanic : ∀ p r, updatedConfig = .device p → env.EmitJSON p = .panic r →
      motive ⟨.panicked r, [.EmitJSON p (.panic r)], w⟩)
    (jsonError : ∀ p cs e, updatedConfig = .device p → env.EmitJSON p = .val (cs, some e) →
      motive ⟨.returned (some e), [.EmitJSON p (.val (cs, some e))], w⟩)
    (findPanic : ∀ p cs r, updatedConfig = .device p → env.EmitJSON p = .val (cs, none) →
      env.FindAPConfig p env.GetDeviceConfig.Hostname = .panic r →
      motive ⟨.panicked r,
        trSerialized p cs ++ [.FindAPConfig p env.GetDeviceConfig.Hostname (.panic r)], w⟩)
    (findNone : ∀ p cs, updatedConfig = .device p → env.EmitJSON p = .val (cs, none) →
      env.FindAPConfig p env.GetDeviceConfig.Hostname = .val none →
      motive ⟨.returned (some ⟨"not found the configuration for this AP (hostname = "
          ++ env.GetDeviceConfig.Hostname ++ ")"⟩),
        trSerialized p cs ++ [.FindAPConfig p env.GetDeviceConfig.Hostname (.val none)], w⟩)
    (queryPanic : ∀ p cs a r w1, updatedConfig = .device p →
      env.EmitJSON p = .val (cs, none) →
      env.FindAPConfig p env.GetDeviceConfig.Hostname = .val (some a) →
      env.VLANOnIntf env.GetDeviceConfig.ETHINTFName w = (.panic r, w1) →
      motive ⟨.panicked r,
        trLocated env p cs a ++ [.VLANOnIntf env.GetDeviceConfig.ETHINTFName (.panic r)], w1⟩)
    (queryError : ∀ p cs a ex qe w1, updatedConfig = .device p →
      env.EmitJSON p = .val (cs, none) →
      env.FindAPConfig p env.GetDeviceConfig.Hostname = .val (some a) →
      env.VLANOnIntf env.GetDeviceConfig.ETHINTFName w = (.val (ex, some qe), w1) →
      motive ⟨.returned (some ⟨"unable to fetch the existing VLAN with error (" ++ qe.msg
          ++ "), may need to reboot the device."⟩),
        trLocated env p cs a
          ++ [.VLANOnIntf env.GetDeviceConfig.ETHINTFName (.val (ex, some qe))], w1⟩)
    (idsPanic : ∀ p cs a ex w1 r, updatedConfig = .device p →
      env.EmitJSON p = .val (cs, none) →
      env.FindAPConfig p env.GetDeviceConfig.Hostname = .val (some a) →
      env.VLANOnIntf env.GetDeviceConfig.ETHINTFName w = (.val (ex, none), w1) →
      env.VLANIDs a = .panic r →
      motive ⟨.panicked r, trQueried env p cs a ex ++ [.VLANIDs a (.panic r)], w1⟩)
    (cleanupPanic : ∀ p cs a ex w1 nv r w2, updatedConfig = .device p →
      env.EmitJSON p = .val (cs, none) →
      env.FindAPConfig p env.GetDeviceConfig.Hostname = .val (some a) →
      env.VLANOnIntf env.GetDeviceConfig.ETHINTFName w = (.val (ex, none), w1) →
      env.VLANIDs a = .val nv →
      env.CleanupConfig env.GetDeviceConfig.ETHINTFName (changedVLANIDs ex nv) w1
        = (.panic r, w2) →
      motive ⟨.panicked r,
        trDetected env p cs a ex nv
          ++ [.CleanupConfig env.GetDeviceConfig.ETHINTFName (changedVLANIDs ex nv) (.panic r)],
        w2⟩)
    (nilDevice : ∀ cs a ex w1 nv c w2, updatedConfig = .device none →
      env.EmitJSON none = .val (cs, none) →
      env.FindAPConfig none env.GetDeviceConfig.Hostname = .val (some a) →
      env.VLANOnIntf env.GetDeviceConfig.ETHINTFName w = (.val (ex, none), w1) →
      env.VLANIDs a = .val nv →
      env.CleanupConfig env.GetDeviceConfig.ETHINTFName (changedVLANIDs ex nv) w1
        = (.val c, w2) →
      motive ⟨.panicked nilDeref, trSettled env none cs a ex nv c, env.Sleep (5 * Second) w2⟩)
    (applyPanic : ∀ dev cs a ex w1 nv c w2 r w3, updatedConfig = .device (some dev) →
      env.EmitJSON (some dev) = .val (cs, none) →
      env.FindAPConfig (some dev) env.GetDeviceConfig.Hostname = .val (some a) →
      env.VLANOnIntf env.GetDeviceConfig.ETHINTFName w = (.val (ex, none), w1) →
      env.VLANIDs a = .val nv →
      env.CleanupConfig env.GetDeviceConfig.ETHINTFName (changedVLANIDs ex nv) w1
        = (.val c, w2) →
      env.ApplyConfig a (env.Gasket dev) (VLANChanged ex nv) env.GetDeviceConfig.ETHINTFName
        env.GetDeviceConfig.WLANINTFName (env.Sleep (5 * Second) w2) = (.panic r, w3) →
      motive ⟨.panicked r,
        trSettled env (some dev) cs a ex nv c ++ [applyCall env dev a ex nv (.panic r)], w3⟩)
    (applyError : ∀ dev cs a ex w1 nv c w2 e w3, updatedConfig = .device (some dev) →
      env.EmitJSON (some dev) = .val (cs, none) →
      env.FindAPConfig (some dev) env.GetDeviceConfig.Hostname = .val (some a) →
      env.VLANOnIntf env.GetDeviceConfig.ETHINTFName w = (.val (ex, none), w1) →
      env.VLANIDs a = .val nv →
      env.CleanupConfig env.GetDeviceConfig.ETHINTFName (changedVLANIDs ex nv) w1
        = (.val c, w2) →
      env.ApplyConfig a (env.Gasket dev) (VLANChanged ex nv) env.GetDeviceConfig.ETHINTFName
        env.GetDeviceConfig.WLANINTFName (env.Sleep (5 * Second) w2) = (.val (some e), w3) →
      motive ⟨.returned (some e),
        trSettled env (some dev) cs a ex nv c ++ [applyCall env dev a ex nv (.val (some e))],
        w3⟩)
    (savePanic : ∀ dev cs a ex w1 nv c w2 w3 r w4, updatedConfig = .device (some dev) →
      env.EmitJSON (some dev) = .val (cs, none) →
      env.FindAPConfig (some dev) env.GetDeviceConfig.Hostname = .val (some a) →
      env.VLANOnIntf env.GetDeviceConfig.ETHINTFName w = (.val (ex, none), w1) →
      env.VLANIDs a = .val nv →
      env.CleanupConfig env.GetDeviceConfig.ETHINTFName (changedVLANIDs ex nv) w1
        = (.val c, w2) →
      env.ApplyConfig a (env.Gasket dev) (VLANChanged ex nv) env.GetDeviceConfig.ETHINTFName
        env.GetDeviceConfig.WLANINTFName (env.Sleep (5 * Second) w2) = (.val none, w3) →
      env.SaveToFile env.runFolder env.apConfigFileName cs w3 = (.panic r, w4) →
      motive ⟨.panicked r, trApplied env dev cs a ex nv c ++ [saveCall env cs (.panic r)], w4⟩)
    (saveError : ∀ dev cs a ex w1 nv c w2 w3 e w4, updatedConfig = .device (some dev) →
      env.EmitJSON (some dev) = .val (cs, none) →
      env.FindAPConfig (some dev) env.GetDeviceConfig.Hostname = .val (some a) →
      env.VLANOnIntf env.GetDeviceConfig.ETHINTFName w = (.val (ex, none), w1) →
      env.VLANIDs a = .val nv →
      env.CleanupConfig env.GetDeviceConfig.ETHINTFName (changedVLANIDs ex nv) w1
        = (.val c, w2) →
      env.ApplyConfig a (env.Gasket dev) (VLANChanged ex nv) env.GetDeviceConfig.ETHINTFName
        env.GetDeviceConfig.WLANINTFName (env.Sleep (5 * Second) w2) = (.val none, w3) →
      env.SaveToFile env.runFolder env.apConfigFileName cs w3 = (.val (some e), w4) →
      motive ⟨.returned (some e),
        trApplied env dev cs a ex nv c ++ [saveCall env cs (.val (some e))], w4⟩)
    (success : ∀ dev cs a ex w1 nv c w2 w3 w4, updatedConfig = .device (some dev) →
      env.EmitJSON (some dev) = .val (cs, none) →
      env.FindAPConfig (some dev) env.GetDeviceConfig.Hostname = .val (some a) →
      env.VLANOnIntf env.GetDeviceConfig.ETHINTFName w = (.val (ex, none), w1) →
      env.VLANIDs a = .val nv →
      env.CleanupConfig env.GetDeviceConfig.ETHINTFName (changedVLANIDs ex nv) w1
        = (.val c, w2) →
      env.ApplyConfig a (env.Gasket dev) (VLANChanged ex nv) env.GetDeviceConfig.ETHINTFName
        env.GetDeviceConfig.WLANINTFName (env.Sleep (5 * Second) w2) = (.val none, w3) →
      env.SaveToFile env.runFolder env.apConfigFileName cs w3 = (.val none, w4) →
      motive ⟨.returned none,
        trApplied env dev cs a ex nv c
          ++ [saveCall env cs (.val none), .Info "Saved the configuration to file."], w4⟩) :
    motive (handleSetInternal env updatedConfig w) := by
  cases updatedConfig with
  | other => exact wrongShape rfl
  | device p =>
    rcases hj : env.EmitJSON p with ⟨cs, _ | je⟩ | r
    case panic => simpa [handleSetInternal, hj] using jsonPanic p r rfl hj
    case val.mk.some => simpa [handleSetInternal, hj] using jsonError p cs je rfl hj
    rcases hf : env.FindAPConfig p env.GetDeviceConfig.Hostname with (_ | a) | r
    case panic =>
      simpa [handleSetInternal, hj, hf, trSerialized] using findPanic p cs r rfl hj hf
    case val.none =>
      simpa [handleSetInternal, hj, hf, trSerialized] using findNone p cs rfl hj hf
    rcases hq : env.VLANOnIntf env.GetDeviceConfig.ETHINTFName w with ⟨⟨ex, _ | qe⟩ | r, w1⟩
    case mk.panic =>
      simpa [handleSetInternal, checkAndCleanup, hj, hf, hq, trSerialized, trLocated]
        using queryPanic p cs a r w1 rfl hj hf hq
    case mk.val.mk.some =>
      simpa [handleSetInternal, checkAndCleanup, hj, hf, hq, trSerialized, trLocated]
        using queryError p cs a ex qe w1 rfl hj hf hq
    rcases hi : env.VLANIDs a with nv | r
    case panic =>
      simpa [handleSetInternal, checkAndCleanup, hj, hf, hq, hi, trSerialized, trLocated,
        trQueried] using idsPanic p cs a ex w1 r rfl hj hf hq hi
    rcases hc : env.CleanupConfig env.GetDeviceConfig.ETHINTFName (changedVLANIDs ex nv) w1
      with ⟨c | r, w2⟩
    case mk.panic =>
      have := cleanupPanic p cs a ex w1 nv r w2 rfl hj hf hq hi hc
      simp only [changedVLANIDs] at hc
      simpa [handleSetInternal, checkAndCleanup, hj, hf, hq, hi, hc, trSerialized, trLocated,
        trQueried, trDetected, changeNote, changedVLANIDs] using this
    have hc2 := hc
    simp only [changedVLANIDs] at hc2
    cases p with
    | none =>
      simpa [handleSetInternal, checkAndCleanup, applyAndSave, hj, hf, hq, hi, hc2,
        trSerialized, trLocated, trQueried, trDetected, trSettled, changeNote, changedVLANIDs]
        using nilDevice cs a ex w1 nv c w2 rfl hj hf hq hi hc
    | some dev =>
      rcases ha : env.ApplyConfig a (env.Gasket dev) (VLANChanged ex nv)
        env.GetDeviceConfig.ETHINTFName env.GetDeviceConfig.WLANINTFName
        (env.Sleep (5 * Second) w2) with ⟨(_ | ae) | r, w3⟩
      case mk.panic =>
        simpa [handleSetInternal, checkAndCleanup, applyAndSave, hj, hf, hq, hi, hc2, ha,
          trSerialized, trLocated, trQueried, trDetected, trSettled, changeNote,
          changedVLANIDs, applyCall]
          using applyPanic dev cs a ex w1 nv c w2 r w3 rfl hj hf hq hi hc ha
      case mk.val.some =>
        simpa [handleSetInternal, checkAndCleanup, applyAndSave, hj, hf, hq, hi, hc2, ha,
          trSerialized, trLocated, trQueried, trDetected, trSettled, changeNote,
          changedVLANIDs, applyCall]
          using applyError dev cs a ex w1 nv c w2 ae w3 rfl hj hf hq hi hc ha
      rcases hs : env.SaveToFile env.runFolder env.apConfigFileName cs w3
        with ⟨(_ | se) | r, w4⟩
      · simpa [handleSetInternal, checkAndCleanup, applyAndSave, hj, hf, hq, hi, hc2, ha, hs,
          trSerialized, trLocated, trQueried, trDetected, trSettled, trApplied, changeNote,
          changedVLANIDs, applyCall, saveCall]
          using success dev cs a ex w1 nv c w2 w3 w4 rfl hj hf hq hi hc ha hs
      · simpa [handleSetInternal, checkAndCleanup, applyAndSave, hj, hf, hq, hi, hc2, ha, hs,
          trSerialized, trLocated, trQueried, trDetected, trSettled, trApplied, changeNote,
          changedVLANIDs, applyCall, saveCall]
          using saveError dev cs a ex w1 nv c w2 w3 se w4 rfl hj hf hq hi hc ha hs
      · simpa [handleSetInternal, checkAndCleanup, applyAndSave, hj, hf, hq, hi, hc2, ha, hs,
          trSerialized, trLocated, trQueried, trDetected, trSettled, trApplied, changeNote,
          changedVLANIDs, applyCall, saveCall]
          using savePanic dev cs a ex w1 nv c w2 w3 r w4 rfl hj hf hq hi hc ha hs

end Stages

/-! ## Early failures -/

section Claims

variable {σ D A G ρ : Type}

/-- C4: a configuration object that is not a `*ocstruct.Device` makes
`handleSetInternal` return the error "new configuration has invalid type"
without calling any collaborator (the list of calls is empty, so there is no
VLAN query, cleanup, settle wait, apply or persistence) and without touching
the world state. -/
theorem C4_wrong_shape_no_side_effect (env : Env σ D A G ρ) (updatedConfig : ValidatedGoStruct D)
    (w : σ) (hshape : ∀ officeAPs, updatedConfig ≠ .device officeAPs) :
    (handleSetInternal env updatedConfig w).outcome
        = .returned (some ⟨"new configuration has invalid type"⟩)
      ∧ (handleSetInternal env updatedConfig w).trace = []
      ∧ (handleSetInternal env updatedConfig w).world = w := by
  cases updatedConfig with
  | device p => exact absurd rfl (hshape p)
  | other => exact ⟨rfl, rfl, rfl⟩

theorem C4_wrong_shape_no_side_effect_witness :
    (handleSetInternal demoEnv .other [10, 20]).outcome
        = .returned (some ⟨"new configuration has invalid type"⟩)
      ∧ (handleSetInternal demoEnv .other [10, 20]).trace = []
      ∧ (handleSetInternal demoEnv .other [10, 20]).world = [10, 20] :=
  C4_wrong_shape_no_side_effect demoEnv .other [10, 20] (fun _ h => by cases h)

/-- C5: when the configuration is a device tree that serializes and
`ocutil.FindAPConfig` returns nil for this device's hostname,
`handleSetInternal` returns the error naming the hostname; the only calls made
are the serialization, its log line and the lookup (no VLAN query, cleanup,
settle wait, apply or persistence, and no second lookup with a default), and
the world state is untouched. -/
theorem C5_locator_miss (env : Env σ D A G ρ) (officeAPs : Option D) (configString : String)
    (w : σ)
    (hjson : env.EmitJSON officeAPs = .val (configString, none))
    (hfind : env.FindAPConfig officeAPs env.GetDeviceConfig.Hostname = .val none) :
    (handleSetInternal env (.device officeAPs) w).outcome
        = .returned (some ⟨"not found the configuration for this AP (hostname = "
            ++ env.GetDeviceConfig.Hostname ++ ")"⟩)
      ∧ (handleSetInternal env (.device officeAPs) w).trace
        = [.EmitJSON officeAPs (.val (configString, none)),
           .Info ("Received a new configuration:\n" ++ configString ++ "\n"),
           .FindAPConfig officeAPs env.GetDeviceConfig.Hostname (.val none)]
      ∧ (handleSetInternal env (.device officeAPs) w).world = w := by
  simp [handleSetInternal, hjson, hfind]

theorem C5_locator_miss_witness :
    (handleSetInternal demoEnv (.device (some [("ap2", [10])])) [10, 20]).outcome
        = .returned (some ⟨"not found the configuration for this AP (hostname = "
            ++ demoEnv.GetDeviceConfig.Hostname ++ ")"⟩)
      ∧ (handleSetInternal demoEnv (.device (some [("ap2", [10])])) [10, 20]).trace
        = [.EmitJSON (some [("ap2", [10])]) (.val ("cfg", none)),
           .Info ("Received a new configuration:\n" ++ "cfg" ++ "\n"),
           .FindAPConfig (some [("ap2", [10])]) demoEnv.GetDeviceConfig.Hostname (.val none)]
      ∧ (handleSetInternal demoEnv (.device (some [("ap2", [10])])) [10, 20]).world = [10, 20] :=
  C5_locator_miss demoEnv (some [("ap2", [10])]) "cfg" [10, 20] rfl (by decide)

/-- C6: when the run gets to the VLAN query on the uplink interface and the
query returns an error, `handleSetInternal` returns the error "unable to fetch
the existing VLAN with error (<query error>), may need to reboot the device.";
the query is the last call of the run, so no cleanup, settle wait, apply or
persistence call is made. -/
theorem C6_query_failure (env : Env σ D A G ρ) (officeAPs : Option D) (configString : String)
    (apConfig : A) (existingVLANIDs : List Int) (qerr : GoError) (w w1 : σ)
    (hjson : env.EmitJSON officeAPs = .val (configString, none))
    (hfind : env.FindAPConfig officeAPs env.GetDeviceConfig.Hostname = .val (some apConfig))
    (hquery : env.VLANOnIntf env.GetDeviceConfig.ETHINTFName w
        = (.val (existingVLANIDs, some qerr), w1)) :
    (handleSetInternal env (.device officeAPs) w).outcome
        = .returned (some ⟨"unable to fetch the existing VLAN with error (" ++ qerr.msg
            ++ "), may need to reboot the device."⟩)
      ∧ (handleSetInternal env (.device officeAPs) w).trace
        = [.EmitJSON officeAPs (.val (configString, none)),
           .Info ("Received a new configuration:\n" ++ configString ++ "\n"),
           .FindAPConfig officeAPs env.GetDeviceConfig.Hostname (.val (some apConfig)),
           .VLANOnIntf env.GetDeviceConfig.ETHINTFName (.val (existingVLANIDs, some qerr))]
      ∧ (handleSetInternal env (.device officeAPs) w).world = w1 := by
  simp [handleSetInternal, checkAndCleanup, hjson, hfind, hquery]

theorem C6_query_failure_witness :
    (handleSetInternal brokenQueryEnv (.device (some [("ap1", [10])])) [10, 20]).outcome
        = .returned (some ⟨"unable to fetch the existing VLAN with error (" ++ "exit status 1"
            ++ "), may need to reboot the device."⟩)
      ∧ (handleSetInternal brokenQueryEnv (.device (some [("ap1", [10])])) [10, 20]).trace
        = [.EmitJSON (some [("ap1", [10])]) (.val ("cfg", none)),
           .Info ("Received a new configuration:\n" ++ "cfg" ++ "\n"),
           .FindAPConfig (some [("ap1", [10])]) brokenQueryEnv.GetDeviceConfig.Hostname
             (.val (some [10])),
           .VLANOnIntf brokenQueryEnv.GetDeviceConfig.ETHINTFName
             (.val ([], some ⟨"exit status 1"⟩))]
      ∧ (handleSetInternal brokenQueryEnv (.device (some [("ap1", [10])])) [10, 20]).world
        = [10, 20] :=
  C6_query_failure brokenQueryEnv (some [("ap1", [10])]) "cfg" [10] [] ⟨"exit status 1"⟩
    [10, 20] [10, 20] rfl (by decide) rfl

/-! ## Change detection inside the handler -/

/-- C1: when the run reaches change detection (the tree serializes, the
lookup finds the configuration, the VLAN query returns `existingVLANIDs`, the
configuration implies `newVLANIDs`) and the two VLAN sets differ in at least
one element, then `service.CleanupConfig` is called with the uplink interface
name and the full list the query returned; and when that call returns (and the
device pointer is not nil), the settle wait follows and then
`service.ApplyConfig` is called with `resetIntf = true`. -/
theorem C1_vlan_change_resets (env : Env σ D A G ρ) (officeAPs : Option D)
    (configString : String) (apConfig : A) (existingVLANIDs newVLANIDs : List Int) (w w1 : σ)
    (hjson : env.EmitJSON officeAPs = .val (configString, none))
    (hfind : env.FindAPConfig officeAPs env.GetDeviceConfig.Hostname = .val (some apConfig))
    (hquery : env.VLANOnIntf env.GetDeviceConfig.ETHINTFName w
        = (.val (existingVLANIDs, none), w1))
    (hids : env.VLANIDs apConfig = .val newVLANIDs)
    (hdiff : ∃ v, (v ∈ existingVLANIDs ∧ v ∉ newVLANIDs) ∨ (v ∈ newVLANIDs ∧ v ∉ existingVLANIDs)) :
    (∃ res rest, (handleSetInternal env (.device officeAPs) w).trace
        = [.EmitJSON officeAPs (.val (configString, none)),
           .Info ("Received a new configuration:\n" ++ configString ++ "\n"),
           .FindAPConfig officeAPs env.GetDeviceConfig.Hostname (.val (some apConfig)),
           .VLANOnIntf env.GetDeviceConfig.ETHINTFName (.val (existingVLANIDs, none)),
           .VLANIDs apConfig (.val newVLANIDs),
           .Info ("VLAN changes (" ++ fmtInts existingVLANIDs ++ " -> " ++ fmtInts newVLANIDs
             ++ ") on interface " ++ env.GetDeviceConfig.ETHINTFName ++ "."),
           .CleanupConfig env.GetDeviceConfig.ETHINTFName existingVLANIDs res] ++ rest)
      ∧ (∀ dev c w2, officeAPs = some dev →
          env.CleanupConfig env.GetDeviceConfig.ETHINTFName existingVLANIDs w1 = (.val c, w2) →
          ∃ res rest, (handleSetInternal env (.device officeAPs) w).trace
            = [.EmitJSON officeAPs (.val (configString, none)),
               .Info ("Received a new configuration:\n" ++ configString ++ "\n"),
               .FindAPConfig officeAPs env.GetDeviceConfig.Hostname (.val (some apConfig)),
               .VLANOnIntf env.GetDeviceConfig.ETHINTFName (.val (existingVLANIDs, none)),
               .VLANIDs apConfig (.val newVLANIDs),
               .Info ("VLAN changes (" ++ fmtInts existingVLANIDs ++ " -> "
                 ++ fmtInts newVLANIDs ++ ") on interface "
                 ++ env.GetDeviceConfig.ETHINTFName ++ "."),
               .CleanupConfig env.GetDeviceConfig.ETHINTFName existingVLANIDs (.val c),
               .Sleep (5 * Second),
               .ApplyConfig apConfig (env.Gasket dev) true env.GetDeviceConfig.ETHINTFName
                 env.GetDeviceConfig.WLANINTFName res] ++ rest) := by
  have hch : VLANChanged existingVLANIDs newVLANIDs = true :=
    (VLANChanged_eq_true_iff _ _).2 hdiff
  constructor
  · simp only [handleSetInternal, checkAndCleanup, hjson, hfind, hquery, hids, hch, if_true]
    rcases hc : env.CleanupConfig env.GetDeviceConfig.ETHINTFName existingVLANIDs w1
      with ⟨c | r, w2⟩
    · simp only
      obtain ⟨rest, hrest⟩ := applyAndSave_trace_append env officeAPs configString apConfig true
        ([.EmitJSON officeAPs (.val (configString, none)),
           .Info ("Received a new configuration:\n" ++ configString ++ "\n")]
          ++ [.FindAPConfig officeAPs env.GetDeviceConfig.Hostname (.val (some apConfig))]
          ++ [.VLANOnIntf env.GetDeviceConfig.ETHINTFName (.val (existingVLANIDs, none))]
          ++ [.VLANIDs apConfig (.val newVLANIDs),
            .Info ("VLAN changes (" ++ fmtInts existingVLANIDs ++ " -> " ++ fmtInts newVLANIDs
              ++ ") on interface " ++ env.GetDeviceConfig.ETHINTFName ++ ".")]
          ++ [.CleanupConfig env.GetDeviceConfig.ETHINTFName existingVLANIDs (.val c),
            .Sleep (5 * Second)]) (env.Sleep (5 * Second) w2)
      rw [hrest]
      exact ⟨.val c, .Sleep (5 * Second) :: rest, by simp⟩
    · exact ⟨.panic r, [], by simp⟩
  · intro dev c w2 hdev hc
    subst hdev
    simp only [handleSetInternal, checkAndCleanup, hjson, hfind, hquery, hids, hch, if_true, hc]
    obtain ⟨res, rest, hrest⟩ := applyAndSave_trace_some env dev configString apConfig true
        ([.EmitJSON (some dev) (.val (configString, none)),
           .Info ("Received a new configuration:\n" ++ configString ++ "\n")]
          ++ [.FindAPConfig (some dev) env.GetDeviceConfig.Hostname (.val (some apConfig))]
          ++ [.VLANOnIntf env.GetDeviceConfig.ETHINTFName (.val (existingVLANIDs, none))]
          ++ [.VLANIDs apConfig (.val newVLANIDs),
            .Info ("VLAN changes (" ++ fmtInts existingVLANIDs ++ " -> " ++ fmtInts newVLANIDs
              ++ ") on interface " ++ env.GetDeviceConfig.ETHINTFName ++ ".")]
          ++ [.CleanupConfig env.GetDeviceConfig.ETHINTFName existingVLANIDs (.val c),
            .Sleep (5 * Second)]) (env.Sleep (5 * Second) w2)
    rw [hrest]
    exact ⟨res, rest, by simp⟩

theorem C1_vlan_change_resets_witness :
    (∃ v : Int, (v ∈ [10, 20] ∧ v ∉ [20, 30]) ∨ (v ∈ [20, 30] ∧ v ∉ [10, 20]))
      ∧ (∃ res rest, (handleSetInternal demoEnv (.device (some [("ap1", [20, 30])])) [10, 20]).trace
        = [.EmitJSON (some [("ap1", [20, 30])]) (.val ("cfg", none)),
           .Info ("Received a new configuration:\n" ++ "cfg" ++ "\n"),
           .FindAPConfig (some [("ap1", [20, 30])]) "ap1" (.val (some [20, 30])),
           .VLANOnIntf "eth0" (.val ([10, 20], none)),
           .VLANIDs [20, 30] (.val [20, 30]),
           .Info ("VLAN changes (" ++ fmtInts [10, 20] ++ " -> " ++ fmtInts [20, 30]
             ++ ") on interface " ++ "eth0" ++ "."),
           .CleanupConfig "eth0" [10, 20] res] ++ rest)
      ∧ (∃ res rest, (handleSetInternal demoEnv (.device (some [("ap1", [20, 30])])) [10, 20]).trace
        = [.EmitJSON (some [("ap1", [20, 30])]) (.val ("cfg", none)),
           .Info ("Received a new configuration:\n" ++ "cfg" ++ "\n"),
           .FindAPConfig (some [("ap1", [20, 30])]) "ap1" (.val (some [20, 30])),
           .VLANOnIntf "eth0" (.val ([10, 20], none)),
           .VLANIDs [20, 30] (.val [20, 30]),
           .Info ("VLAN changes (" ++ fmtInts [10, 20] ++ " -> " ++ fmtInts [20, 30]
             ++ ") on interface " ++ "eth0" ++ "."),
           .CleanupConfig "eth0" [10, 20] (.val ()),
           .Sleep (5 * Second),
           .ApplyConfig [20, 30] () true "eth0" "wlan0" res] ++ rest) :=
  have h := C1_vlan_change_resets demoEnv (some [("ap1", [20, 30])]) "cfg" [20, 30] [10, 20]
    [20, 30] [10, 20] [10, 20] rfl (by decide) rfl rfl ⟨10, by decide⟩
  ⟨⟨10, by decide⟩, h.1, h.2 [("ap1", [20, 30])] () [] rfl (by decide)⟩

/-- C2: when the run reaches change detection and the VLAN set the
configuration implies has the same elements as the VLAN set the query returned
(in whatever order each is listed), then `service.CleanupConfig` is called with
the uplink interface name and an empty VLAN list; and when that call returns
(and the device pointer is not nil), the settle wait follows and then
`service.ApplyConfig` is called with `resetIntf = false`. -/
theorem C2_same_vlans_no_reset (env : Env σ D A G ρ) (officeAPs : Option D)
    (configString : String) (apConfig : A) (existingVLANIDs newVLANIDs : List Int) (w w1 : σ)
    (hjson : env.EmitJSON officeAPs = .val (configString, none))
    (hfind : env.FindAPConfig officeAPs env.GetDeviceConfig.Hostname = .val (some apConfig))
    (hquery : env.VLANOnIntf env.GetDeviceConfig.ETHINTFName w
        = (.val (existingVLANIDs, none), w1))
    (hids : env.VLANIDs apConfig = .val newVLANIDs)
    (hsame : ∀ v, v ∈ existingVLANIDs ↔ v ∈ newVLANIDs) :
    (∃ res rest, (handleSetInternal env (.device officeAPs) w).trace
        = [.EmitJSON officeAPs (.val (configString, none)),
           .Info ("Received a new configuration:\n" ++ configString ++ "\n"),
           .FindAPConfig officeAPs env.GetDeviceConfig.Hostname (.val (some apConfig)),
           .VLANOnIntf env.GetDeviceConfig.ETHINTFName (.val (existingVLANIDs, none)),
           .VLANIDs apConfig (.val newVLANIDs),
           .Info ("No VLAN change on interface " ++ env.GetDeviceConfig.ETHINTFName ++ "."),
           .CleanupConfig env.GetDeviceConfig.ETHINTFName [] res] ++ rest)
      ∧ (∀ dev c w2, officeAPs = some dev →
          env.CleanupConfig env.GetDeviceConfig.ETHINTFName [] w1 = (.val c, w2) →
          ∃ res rest, (handleSetInternal env (.device officeAPs) w).trace
            = [.EmitJSON officeAPs (.val (configString, none)),
               .Info ("Received a new configuration:\n" ++ configString ++ "\n"),
               .FindAPConfig officeAPs env.GetDeviceConfig.Hostname (.val (some apConfig)),
               .VLANOnIntf env.GetDeviceConfig.ETHINTFName (.val (existingVLANIDs, none)),
               .VLANIDs apConfig (.val newVLANIDs),
               .Info ("No VLAN change on interface " ++ env.GetDeviceConfig.ETHINTFName ++ "."),
               .CleanupConfig env.GetDeviceConfig.ETHINTFName [] (.val c),
               .Sleep (5 * Second),
               .ApplyConfig apConfig (env.Gasket dev) false env.GetDeviceConfig.ETHINTFName
                 env.GetDeviceConfig.WLANINTFName res] ++ rest) := by
  have hch : VLANChanged existingVLANIDs newVLANIDs = false :=
    (VLANChanged_eq_false_iff _ _).2 hsame
  constructor
  · simp only [handleSetInternal, checkAndCleanup, hjson, hfind, hquery, hids, hch,
      Bool.false_eq_true, if_false]
    rcases hc : env.CleanupConfig env.GetDeviceConfig.ETHINTFName [] w1
      with ⟨c | r, w2⟩
    · simp only
      obtain ⟨rest, hrest⟩ := applyAndSave_trace_append env officeAPs configString apConfig false
        ([.EmitJSON officeAPs (.val (configString, none)),
           .Info ("Received a new configuration:\n" ++ configString ++ "\n")]
          ++ [.FindAPConfig officeAPs env.GetDeviceConfig.Hostname (.val (some apConfig))]
          ++ [.VLANOnIntf env.GetDeviceConfig.ETHINTFName (.val (existingVLANIDs, none))]
          ++ [.VLANIDs apConfig (.val newVLANIDs),
            .Info ("No VLAN change on interface " ++ env.GetDeviceConfig.ETHINTFName ++ ".")]
          ++ [.CleanupConfig env.GetDeviceConfig.ETHINTFName [] (.val c),
            .Sleep (5 * Second)]) (env.Sleep (5 * Second) w2)
      rw [hrest]
      exact ⟨.val c, .Sleep (5 * Second) :: rest, by simp⟩
    · exact ⟨.panic r, [], by simp⟩
  · intro dev c w2 hdev hc
    subst hdev
    simp only [handleSetInternal, checkAndCleanup, hjson, hfind, hquery, hids, hch,
      Bool.false_eq_true, if_false, hc]
    obtain ⟨res, rest, hrest⟩ := applyAndSave_trace_some env dev configString apConfig false
        ([.EmitJSON (some dev) (.val (configString, none)),
           .Info ("Received a new configuration:\n" ++ configString ++ "\n")]
          ++ [.FindAPConfig (some dev) env.GetDeviceConfig.Hostname (.val (some apConfig))]
          ++ [.VLANOnIntf env.GetDeviceConfig.ETHINTFName (.val (existingVLANIDs, none))]
          ++ [.VLANIDs apConfig (.val newVLANIDs),
            .Info ("No VLAN change on interface " ++ env.GetDeviceConfig.ETHINTFName ++ ".")]
          ++ [.CleanupConfig env.GetDeviceConfig.ETHINTFName [] (.val c),
            .Sleep (5 * Second)]) (env.Sleep (5 * Second) w2)
    rw [hrest]
    exact ⟨res, rest, by simp⟩

theorem C2_same_vlans_no_reset_witness :
    (∀ v : Int, v ∈ [10, 20] ↔ v ∈ [20, 10])
      ∧ (∃ res rest, (handleSetInternal demoEnv (.device (some [("ap1", [20, 10])])) [10, 20]).trace
        = [.EmitJSON (some [("ap1", [20, 10])]) (.val ("cfg", none)),
           .Info ("Received a new configuration:\n" ++ "cfg" ++ "\n"),
           .FindAPConfig (some [("ap1", [20, 10])]) "ap1" (.val (some [20, 10])),
           .VLANOnIntf "eth0" (.val ([10, 20], none)),
           .VLANIDs [20, 10] (.val [20, 10]),
           .Info ("No VLAN change on interface " ++ "eth0" ++ "."),
           .CleanupConfig "eth0" [] res] ++ rest)
      ∧ (∃ res rest, (handleSetInternal demoEnv (.device (some [("ap1", [20, 10])])) [10, 20]).trace
        = [.EmitJSON (some [("ap1", [20, 10])]) (.val ("cfg", none)),
           .Info ("Received a new configuration:\n" ++ "cfg" ++ "\n"),
           .FindAPConfig (some [("ap1", [20, 10])]) "ap1" (.val (some [20, 10])),
           .VLANOnIntf "eth0" (.val ([10, 20], none)),
           .VLANIDs [20, 10] (.val [20, 10]),
           .Info ("No VLAN change on interface " ++ "eth0" ++ "."),
           .CleanupConfig "eth0" [] (.val ()),
           .Sleep (5 * Second),
           .ApplyConfig [20, 10] () false "eth0" "wlan0" res] ++ rest) :=
  have hs : ∀ v : Int, v ∈ [10, 20] ↔ v ∈ [20, 10] := fun v => by
    simp only [List.mem_cons, List.mem_singleton, List.not_mem_nil, or_false]
    exact or_comm
  have h := C2_same_vlans_no_reset demoEnv (some [("ap1", [20, 10])]) "cfg" [20, 10] [10, 20]
    [20, 10] [10, 20] [10, 20] rfl (by decide) rfl rfl hs
  ⟨hs, h.1, h.2 [("ap1", [20, 10])] () [10, 20] rfl (by decide)⟩

/-! ## Fault containment -/

/-- C3: `handleSet` always returns an `error` value to its caller; when
`handleSetInternal` is unwound by a runtime fault with description `r`
(wherever the fault is raised, the apply step included), `handleSet` returns
the non-nil error "panic detected when handling updated config: r", and the
calls made and the world state are those of the interrupted run. -/
theorem C3_panic_contained (env : Env σ D A G ρ) (updatedConfig : ValidatedGoStruct D) (w : σ)
    (r : String) (hfault : (handleSetInternal env updatedConfig w).outcome = .panicked r) :
    (handleSet env updatedConfig w).1
        = some ⟨"panic detected when handling updated config: " ++ r⟩
      ∧ (handleSet env updatedConfig w).2
        = ((handleSetInternal env updatedConfig w).trace,
           (handleSetInternal env updatedConfig w).world) := by
  simp [handleSet, hfault, recover]

theorem C3_panic_contained_witness :
    Event.ApplyConfig [20, 30] () true "eth0" "wlan0" (.panic "index out of range")
        ∈ (handleSetInternal faultyApplyEnv (.device (some [("ap1", [20, 30])])) [10, 20]).trace
      ∧ (handleSet faultyApplyEnv (.device (some [("ap1", [20, 30])])) [10, 20]).1
        = some ⟨"panic detected when handling updated config: " ++ "index out of range"⟩
      ∧ (handleSet faultyApplyEnv (.device (some [("ap1", [20, 30])])) [10, 20]).2
        = ((handleSetInternal faultyApplyEnv (.device (some [("ap1", [20, 30])])) [10, 20]).trace,
           (handleSetInternal faultyApplyEnv (.device (some [("ap1", [20, 30])])) [10, 20]).world) :=
  ⟨by decide,
   C3_panic_contained faultyApplyEnv (.device (some [("ap1", [20, 30])])) [10, 20]
    "index out of range" (by decide)⟩

/-! ## Apply failure and persistence -/

/-- C7: on a run in which `service.ApplyConfig` returns an error `e`,
`handleSetInternal` returns exactly `e`, the apply call is the last call of the
run (no rollback call follows) and `syscmd.SaveToFile` is not called; and on
any run at all, every call of `syscmd.SaveToFile` comes after a call of
`service.ApplyConfig` that returned nil. -/
theorem C7_apply_error_verbatim (env : Env σ D A G ρ) (updatedConfig : ValidatedGoStruct D)
    (w : σ) (ap : A) (g : G) (b : Bool) (eth wlan : String) (e : GoError)
    (happly : Event.ApplyConfig ap g b eth wlan (.val (some e))
      ∈ (handleSetInternal env updatedConfig w).trace) :
    (handleSetInternal env updatedConfig w).outcome = .returned (some e)
      ∧ (∃ pre, (handleSetInternal env updatedConfig w).trace
          = pre ++ [.ApplyConfig ap g b eth wlan (.val (some e))])
      ∧ (∀ f n c res, Event.SaveToFile f n c res ∉ (handleSetInternal env updatedConfig w).trace)
      ∧ (∀ (env2 : Env σ D A G ρ) (cfg2 : ValidatedGoStruct D) (w0 : σ) f n c res,
          Event.SaveToFile f n c res ∈ (handleSetInternal env2 cfg2 w0).trace →
          ∃ ap2 g2 b2 eth2 wlan2 pre post, (handleSetInternal env2 cfg2 w0).trace
            = pre ++ .ApplyConfig ap2 g2 b2 eth2 wlan2 (.val none) :: post
            ∧ Event.SaveToFile f n c res ∈ post) := by
  refine ⟨?_, ?_, ?_, ?_⟩
  · revert happly
    apply handleSetInternal_elim env updatedConfig w
      (fun run => Event.ApplyConfig ap g b eth wlan (.val (some e)) ∈ run.trace
        → run.outcome = .returned (some e))
    all_goals intros
    all_goals simp_all [trSerialized, trLocated, trQueried, trDetected, trSettled, trApplied,
      applyCall, saveCall]
  · revert happly
    apply handleSetInternal_elim env updatedConfig w
      (fun run => Event.ApplyConfig ap g b eth wlan (.val (some e)) ∈ run.trace
        → ∃ pre, run.trace = pre ++ [Event.ApplyConfig ap g b eth wlan (.val (some e))])
    case applyError =>
      intro dev cs a ex w1 nv c w2 e2 w3 _ _ _ _ _ _ _ hmem
      refine ⟨trSettled env (some dev) cs a ex nv c, ?_⟩
      simp [trSerialized, trLocated, trQueried, trDetected, trSettled, applyCall] at hmem
      simp [applyCall, hmem]
    all_goals intros
    all_goals simp_all [trSerialized, trLocated, trQueried, trDetected, trSettled, trApplied,
      applyCall, saveCall]
  · revert happly
    apply handleSetInternal_elim env updatedConfig w
      (fun run => Event.ApplyConfig ap g b eth wlan (.val (some e)) ∈ run.trace
        → ∀ f n c res, Event.SaveToFile f n c res ∉ run.trace)
    all_goals intros
    all_goals simp_all [trSerialized, trLocated, trQueried, trDetected, trSettled, trApplied,
      applyCall, saveCall]
  · intro env2 cfg2 w0 f n c res
    apply handleSetInternal_elim env2 cfg2 w0
      (fun run => Event.SaveToFile f n c res ∈ run.trace →
        ∃ ap2 g2 b2 eth2 wlan2 pre post,
          run.trace = pre ++ Event.ApplyConfig ap2 g2 b2 eth2 wlan2 (.val none) :: post
          ∧ Event.SaveToFile f n c res ∈ post)
    case savePanic =>
      intro dev cs a ex w1 nv c2 w2 w3 r w4 _ _ _ _ _ _ _ _ hmem
      refine ⟨a, env2.Gasket dev, VLANChanged ex nv, env2.GetDeviceConfig.ETHINTFName,
        env2.GetDeviceConfig.WLANINTFName, trSettled env2 (some dev) cs a ex nv c2,
        [.Info "Device configuration succeeded.", saveCall env2 cs (.panic r)], ?_, ?_⟩
      · simp [trApplied, applyCall]
      · simp [trSerialized, trLocated, trQueried, trDetected, trSettled, trApplied, applyCall,
          saveCall] at hmem
        simp [saveCall, hmem]
    case saveError =>
      intro dev cs a ex w1 nv c2 w2 w3 se w4 _ _ _ _ _ _ _ _ hmem
      refine ⟨a, env2.Gasket dev, VLANChanged ex nv, env2.GetDeviceConfig.ETHINTFName,
        env2.GetDeviceConfig.WLANINTFName, trSettled env2 (some dev) cs a ex nv c2,
        [.Info "Device configuration succeeded.", saveCall env2 cs (.val (some se))], ?_, ?_⟩
      · simp [trApplied, applyCall]
      · simp [trSerialized, trLocated, trQueried, trDetected, trSettled, trApplied, applyCall,
          saveCall] at hmem
        simp [saveCall, hmem]
    case success =>
      intro dev cs a ex w1 nv c2 w2 w3 w4 _ _ _ _ _ _ _ _ hmem
      refine ⟨a, env2.Gasket dev, VLANChanged ex nv, env2.GetDeviceConfig.ETHINTFName,
        env2.GetDeviceConfig.WLANINTFName, trSettled env2 (some dev) cs a ex nv c2,
        [.Info "Device configuration succeeded.", saveCall env2 cs (.val none),
          .Info "Saved the configuration to file."], ?_, ?_⟩
      · simp [trApplied, applyCall]
      · simp [trSerialized, trLocated, trQueried, trDetected, trSettled, trApplied, applyCall,
          saveCall] at hmem
        simp [saveCall, hmem]
    all_goals intros
    all_goals simp_all [trSerialized, trLocated, trQueried, trDetected, trSettled, trApplied,
      applyCall, saveCall]

theorem C7_apply_error_verbatim_witness :
    Event.ApplyConfig [20, 30] () true "eth0" "wlan0" (.val (some ⟨"hostapd failed"⟩))
        ∈ (handleSetInternal failingApplyEnv (.device (some [("ap1", [20, 30])])) [10, 20]).trace
      ∧ (handleSetInternal failingApplyEnv (.device (some [("ap1", [20, 30])])) [10, 20]).outcome
        = .returned (some ⟨"hostapd failed"⟩)
      ∧ (∀ f n c res, Event.SaveToFile f n c res
        ∉ (handleSetInternal failingApplyEnv (.device (some [("ap1", [20, 30])])) [10, 20]).trace) :=
  have h := C7_apply_error_verbatim failingApplyEnv (.device (some [("ap1", [20, 30])]))
    [10, 20] [20, 30] () true "eth0" "wlan0" ⟨"hostapd failed"⟩ (by decide)
  ⟨by decide, h.1, h.2.2.1⟩

/-! ## Order of the device calls -/

/-- C9: on every run that calls `service.ApplyConfig` (whatever the reset
flag), the calls made before it are, in this order and once each: the
serialization, its log line, the lookup, the VLAN query on the uplink
interface, the computation of the new VLAN list, the change log line, the
cleanup call, and a sleep of `5 * time.Second`; the apply call comes right
after the sleep, and whatever follows it is a log line or the call of
`syscmd.SaveToFile` (no query, cleanup, sleep or apply is repeated). -/
theorem C9_calls_before_apply (env : Env σ D A G ρ) (updatedConfig : ValidatedGoStruct D)
    (w : σ) (ap : A) (g : G) (b : Bool) (eth wlan : String) (res : Res (Option GoError))
    (happly : Event.ApplyConfig ap g b eth wlan res
      ∈ (handleSetInternal env updatedConfig w).trace) :
    ∃ dev cs ex nv c post,
      updatedConfig = .device (some dev)
      ∧ (handleSetInternal env updatedConfig w).trace
        = [.EmitJSON (some dev) (.val (cs, none)),
           .Info ("Received a new configuration:\n" ++ cs ++ "\n"),
           .FindAPConfig (some dev) env.GetDeviceConfig.Hostname (.val (some ap)),
           .VLANOnIntf env.GetDeviceConfig.ETHINTFName (.val (ex, none)),
           .VLANIDs ap (.val nv),
           .Info (changeNote env.GetDeviceConfig.ETHINTFName ex nv),
           .CleanupConfig env.GetDeviceConfig.ETHINTFName (changedVLANIDs ex nv) (.val c),
           .Sleep (5 * Second),
           .ApplyConfig ap g b eth wlan res] ++ post
      ∧ ∀ ev ∈ post, (∃ t, ev = .Info t) ∨ (∃ f n cnt r, ev = .SaveToFile f n cnt r) := by
  revert happly
  apply handleSetInternal_elim env updatedConfig w
    (fun run => Event.ApplyConfig ap g b eth wlan res ∈ run.trace →
      ∃ dev cs ex nv c post,
        updatedConfig = .device (some dev)
        ∧ run.trace
          = [Event.EmitJSON (some dev) (.val (cs, none)),
             .Info ("Received a new configuration:\n" ++ cs ++ "\n"),
             .FindAPConfig (some dev) env.GetDeviceConfig.Hostname (.val (some ap)),
             .VLANOnIntf env.GetDeviceConfig.ETHINTFName (.val (ex, none)),
             .VLANIDs ap (.val nv),
             .Info (changeNote env.GetDeviceConfig.ETHINTFName ex nv),
             .CleanupConfig env.GetDeviceConfig.ETHINTFName (changedVLANIDs ex nv) (.val c),
             .Sleep (5 * Second),
             .ApplyConfig ap g b eth wlan res] ++ post
        ∧ ∀ ev ∈ post, (∃ t, ev = Event.Info t) ∨ (∃ f n cnt r, ev = Event.SaveToFile f n cnt r))
  case applyPanic =>
    intro dev cs a ex w1 nv c w2 r w3 hcfg _ _ _ _ _ _ hmem
    simp [trSerialized, trLocated, trQueried, trDetected, trSettled, applyCall] at hmem
    obtain ⟨rfl, rfl, rfl, rfl, rfl, rfl⟩ := hmem
    exact ⟨dev, cs, ex, nv, c, [], hcfg,
      by simp [trSerialized, trLocated, trQueried, trDetected, trSettled, applyCall], by simp⟩
  case applyError =>
    intro dev cs a ex w1 nv c w2 e w3 hcfg _ _ _ _ _ _ hmem
    simp [trSerialized, trLocated, trQueried, trDetected, trSettled, applyCall] at hmem
    obtain ⟨rfl, rfl, rfl, rfl, rfl, rfl⟩ := hmem
    exact ⟨dev, cs, ex, nv, c, [], hcfg,
      by simp [trSerialized, trLocated, trQueried, trDetected, trSettled, applyCall], by simp⟩
  case savePanic =>
    intro dev cs a ex w1 nv c w2 w3 r w4 hcfg _ _ _ _ _ _ _ hmem
    simp [trSerialized, trLocated, trQueried, trDetected, trSettled, trApplied, applyCall,
      saveCall] at hmem
    obtain ⟨rfl, rfl, rfl, rfl, rfl, rfl⟩ := hmem
    exact ⟨dev, cs, ex, nv, c,
      [.Info "Device configuration succeeded.", saveCall env cs (.panic r)], hcfg,
      by simp [trSerialized, trLocated, trQueried, trDetected, trSettled, trApplied, applyCall],
      by simp [saveCall]⟩
  case saveError =>
    intro dev cs a ex w1 nv c w2 w3 e w4 hcfg _ _ _ _ _ _ _ hmem
    simp [trSerialized, trLocated, trQueried, trDetected, trSettled, trApplied, applyCall,
      saveCall] at hmem
    obtain ⟨rfl, rfl, rfl, rfl, rfl, rfl⟩ := hmem
    exact ⟨dev, cs, ex, nv, c,
      [.Info "Device configuration succeeded.", saveCall env cs (.val (some e))], hcfg,
      by simp [trSerialized, trLocated, trQueried, trDetected, trSettled, trApplied, applyCall],
      by simp [saveCall]⟩
  case success =>
    intro dev cs a ex w1 nv c w2 w3 w4 hcfg _ _ _ _ _ _ _ hmem
    simp [trSerialized, trLocated, trQueried, trDetected, trSettled, trApplied, applyCall,
      saveCall] at hmem
    obtain ⟨rfl, rfl, rfl, rfl, rfl, rfl⟩ := hmem
    exact ⟨dev, cs, ex, nv, c,
      [.Info "Device configuration succeeded.", saveCall env cs (.val none),
        .Info "Saved the configuration to file."], hcfg,
      by simp [trSerialized, trLocated, trQueried, trDetected, trSettled, trApplied, applyCall],
      by simp [saveCall]⟩
  all_goals intros
  all_goals simp_all [trSerialized, trLocated, trQueried, trDetected, trSettled, trApplied,
    applyCall, saveCall]

theorem C9_calls_before_apply_witness :
    Event.ApplyConfig [20, 10] () false "eth0" "wlan0" (.val none)
        ∈ (handleSetInternal demoEnv (.device (some [("ap1", [20, 10])])) [10, 20]).trace
      ∧ ∃ dev cs ex nv c post,
        ValidatedGoStruct.device (some [("ap1", [20, 10])]) = .device (some dev)
        ∧ (handleSetInternal demoEnv (.device (some [("ap1", [20, 10])])) [10, 20]).trace
          = [.EmitJSON (some dev) (.val (cs, none)),
             .Info ("Received a new configuration:\n" ++ cs ++ "\n"),
             .FindAPConfig (some dev) "ap1" (.val (some [20, 10])),
             .VLANOnIntf "eth0" (.val (ex, none)),
             .VLANIDs [20, 10] (.val nv),
             .Info (changeNote "eth0" ex nv),
             .CleanupConfig "eth0" (changedVLANIDs ex nv) (.val c),
             .Sleep (5 * Second),
             .ApplyConfig [20, 10] () false "eth0" "wlan0" (.val none)] ++ post
        ∧ ∀ ev ∈ post, (∃ t, ev = .Info t) ∨ (∃ f n cnt r, ev = .SaveToFile f n cnt r) :=
  ⟨by decide,
   C9_calls_before_apply demoEnv (.device (some [("ap1", [20, 10])])) [10, 20] [20, 10] ()
    false "eth0" "wlan0" (.val none) (by decide)⟩

/-! ## What cleanup gives back -/

/-- Outcome of a run does not depend on what `service.CleanupConfig` gives back. -/
theorem cleanup_result_ignored {ρ2 : Type} (env : Env σ D A G ρ) (f : ρ → ρ2)
    (updatedConfig : ValidatedGoStruct D) (w : σ) :
    (handleSetInternal (env.withCleanupResult f) updatedConfig w).outcome
        = (handleSetInternal env updatedConfig w).outcome
      ∧ (handleSetInternal (env.withCleanupResult f) updatedConfig w).world
        = (handleSetInternal env updatedConfig w).world := by
  apply handleSetInternal_elim env updatedConfig w
    (fun run => (handleSetInternal (env.withCleanupResult f) updatedConfig w).outcome
        = run.outcome
      ∧ (handleSetInternal (env.withCleanupResult f) updatedConfig w).world = run.world)
  all_goals intros
  all_goals simp_all [handleSetInternal, checkAndCleanup, applyAndSave, Env.withCleanupResult,
    Res.map, changedVLANIDs]

/-! ## When a run succeeds -/

/-- A run that returns nil went through every step: the results of its calls
and the run itself are as in the last case of `handleSetInternal_elim`. -/
theorem success_inv (env : Env σ D A G ρ) (updatedConfig : ValidatedGoStruct D) (w : σ)
    (hok : (handleSetInternal env updatedConfig w).outcome = .returned none) :
    ∃ dev cs a ex w1 nv c w2 w3 w4,
      updatedConfig = .device (some dev)
      ∧ env.EmitJSON (some dev) = .val (cs, none)
      ∧ env.FindAPConfig (some dev) env.GetDeviceConfig.Hostname = .val (some a)
      ∧ env.VLANOnIntf env.GetDeviceConfig.ETHINTFName w = (.val (ex, none), w1)
      ∧ env.VLANIDs a = .val nv
      ∧ env.CleanupConfig env.GetDeviceConfig.ETHINTFName (changedVLANIDs ex nv) w1
        = (.val c, w2)
      ∧ env.ApplyConfig a (env.Gasket dev) (VLANChanged ex nv) env.GetDeviceConfig.ETHINTFName
        env.GetDeviceConfig.WLANINTFName (env.Sleep (5 * Second) w2) = (.val none, w3)
      ∧ env.SaveToFile env.runFolder env.apConfigFileName cs w3 = (.val none, w4)
      ∧ (handleSetInternal env updatedConfig w).trace
        = trApplied env dev cs a ex nv c
          ++ [saveCall env cs (.val none), .Info "Saved the configuration to file."]
      ∧ (handleSetInternal env updatedConfig w).world = w4 := by
  revert hok
  apply handleSetInternal_elim env updatedConfig w
    (fun run => run.outcome = .returned none →
      ∃ dev cs a ex w1 nv c w2 w3 w4,
        updatedConfig = .device (some dev)
        ∧ env.EmitJSON (some dev) = .val (cs, none)
        ∧ env.FindAPConfig (some dev) env.GetDeviceConfig.Hostname = .val (some a)
        ∧ env.VLANOnIntf env.GetDeviceConfig.ETHINTFName w = (.val (ex, none), w1)
        ∧ env.VLANIDs a = .val nv
        ∧ env.CleanupConfig env.GetDeviceConfig.ETHINTFName (changedVLANIDs ex nv) w1
          = (.val c, w2)
        ∧ env.ApplyConfig a (env.Gasket dev) (VLANChanged ex nv)
          env.GetDeviceConfig.ETHINTFName env.GetDeviceConfig.WLANINTFName
          (env.Sleep (5 * Second) w2) = (.val none, w3)
        ∧ env.SaveToFile env.runFolder env.apConfigFileName cs w3 = (.val none, w4)
        ∧ run.trace = trApplied env dev cs a ex nv c
            ++ [saveCall env cs (.val none), Event.Info "Saved the configuration to file."]
        ∧ run.world = w4)
  case success =>
    intro dev cs a ex w1 nv c w2 w3 w4 hcfg hj hf hq hi hc ha hs _
    exact ⟨dev, cs, a, ex, w1, nv, c, w2, w3, w4, hcfg, hj, hf, hq, hi, hc, ha, hs, rfl, rfl⟩
  all_goals intros
  all_goals simp_all

/-- When `handleSet` returns nil, so did `handleSetInternal`. -/
theorem handleSet_nil (env : Env σ D A G ρ) (updatedConfig : ValidatedGoStruct D) (w : σ)
    (hok : (handleSet env updatedConfig w).1 = none) :
    (handleSetInternal env updatedConfig w).outcome = .returned none := by
  unfold handleSet at hok
  cases hout : (handleSetInternal env updatedConfig w).outcome with
  | returned e => simpa [hout, recover] using hok
  | panicked r => simp [hout, recover] at hok

/-- C8: `handleSetInternal` returns nil exactly when the configuration is a
`*ocstruct.Device` and each call of the run, made in the state the previous
calls left, succeeds: `EmitJSON` returns a text and a nil error,
`FindAPConfig` returns a configuration, the VLAN query returns a nil error,
`service.ApplyConfig` returns nil and `syscmd.SaveToFile` returns nil (the new
VLAN list and the cleanup call only have to return; the value cleanup gives
back appears in no condition).  When the shape check fails, or one of the five
calls reports an error while the earlier ones succeeded (the persistence write
after a successful apply included), the run returns a non-nil error.
Replacing what `service.CleanupConfig` gives back changes neither the outcome
nor the final world state. -/
theorem C8_success_iff_all_steps (env : Env σ D A G ρ) (updatedConfig : ValidatedGoStruct D)
    (w : σ) :
    ((handleSetInternal env updatedConfig w).outcome = .returned none ↔
        ∃ dev cs a ex w1 nv c w2 w3 w4,
          updatedConfig = .device (some dev)
          ∧ env.EmitJSON (some dev) = .val (cs, none)
          ∧ env.FindAPConfig (some dev) env.GetDeviceConfig.Hostname = .val (some a)
          ∧ env.VLANOnIntf env.GetDeviceConfig.ETHINTFName w = (.val (ex, none), w1)
          ∧ env.VLANIDs a = .val nv
          ∧ env.CleanupConfig env.GetDeviceConfig.ETHINTFName (changedVLANIDs ex nv) w1
            = (.val c, w2)
          ∧ env.ApplyConfig a (env.Gasket dev) (VLANChanged ex nv)
            env.GetDeviceConfig.ETHINTFName env.GetDeviceConfig.WLANINTFName
            (env.Sleep (5 * Second) w2) = (.val none, w3)
          ∧ env.SaveToFile env.runFolder env.apConfigFileName cs w3 = (.val none, w4))
      ∧ ((∀ p, updatedConfig ≠ .device p) →
          (handleSetInternal env updatedConfig w).outcome
            = .returned (some ⟨"new configuration has invalid type"⟩))
      ∧ (∀ p cs e, updatedConfig = .device p → env.EmitJSON p = .val (cs, some e) →
          (handleSetInternal env updatedConfig w).outcome = .returned (some e))
      ∧ (∀ p cs, updatedConfig = .device p → env.EmitJSON p = .val (cs, none) →
          env.FindAPConfig p env.GetDeviceConfig.Hostname = .val none →
          (handleSetInternal env updatedConfig w).outcome
            = .returned (some ⟨"not found the configuration for this AP (hostname = "
                ++ env.GetDeviceConfig.Hostname ++ ")"⟩))
      ∧ (∀ p cs a ex qe w1, updatedConfig = .device p → env.EmitJSON p = .val (cs, none) →
          env.FindAPConfig p env.GetDeviceConfig.Hostname = .val (some a) →
          env.VLANOnIntf env.GetDeviceConfig.ETHINTFName w = (.val (ex, some qe), w1) →
          (handleSetInternal env updatedConfig w).outcome
            = .returned (some ⟨"unable to fetch the existing VLAN with error (" ++ qe.msg
                ++ "), may need to reboot the device."⟩))
      ∧ (∀ dev cs a ex w1 nv c w2 e w3, updatedConfig = .device (some dev) →
          env.EmitJSON (some dev) = .val (cs, none) →
          env.FindAPConfig (some dev) env.GetDeviceConfig.Hostname = .val (some a) →
          env.VLANOnIntf env.GetDeviceConfig.ETHINTFName w = (.val (ex, none), w1) →
          env.VLANIDs a = .val nv →
          env.CleanupConfig env.GetDeviceConfig.ETHINTFName (changedVLANIDs ex nv) w1
            = (.val c, w2) →
          env.ApplyConfig a (env.Gasket dev) (VLANChanged ex nv)
            env.GetDeviceConfig.ETHINTFName env.GetDeviceConfig.WLANINTFName
            (env.Sleep (5 * Second) w2) = (.val (some e), w3) →
          (handleSetInternal env updatedConfig w).outcome = .returned (some e))
      ∧ (∀ dev cs a ex w1 nv c w2 w3 e w4, updatedConfig = .device (some dev) →
          env.EmitJSON (some dev) = .val (cs, none) →
          env.FindAPConfig (some dev) env.GetDeviceConfig.Hostname = .val (some a) →
          env.VLANOnIntf env.GetDeviceConfig.ETHINTFName w = (.val (ex, none), w1) →
          env.VLANIDs a = .val nv →
          env.CleanupConfig env.GetDeviceConfig.ETHINTFName (changedVLANIDs ex nv) w1
            = (.val c, w2) →
          env.ApplyConfig a (env.Gasket dev) (VLANChanged ex nv)
            env.GetDeviceConfig.ETHINTFName env.GetDeviceConfig.WLANINTFName
            (env.Sleep (5 * Second) w2) = (.val none, w3) →
          env.SaveToFile env.runFolder env.apConfigFileName cs w3 = (.val (some e), w4) →
          (handleSetInternal env updatedConfig w).outcome = .returned (some e))
      ∧ (∀ (ρ2 : Type) (f : ρ → ρ2),
          (handleSetInternal (env.withCleanupResult f) updatedConfig w).outcome
            = (handleSetInternal env updatedConfig w).outcome
          ∧ (handleSetInternal (env.withCleanupResult f) updatedConfig w).world
            = (handleSetInternal env updatedConfig w).world) := by
  refine ⟨⟨?_, ?_⟩, ?_, ?_, ?_, ?_, ?_, ?_,
    fun ρ2 f => cleanup_result_ignored env f updatedConfig w⟩
  · intro hok
    obtain ⟨dev, cs, a, ex, w1, nv, c, w2, w3, w4, hcfg, hj, hf, hq, hi, hc, ha, hs, _, _⟩ :=
      success_inv env updatedConfig w hok
    exact ⟨dev, cs, a, ex, w1, nv, c, w2, w3, w4, hcfg, hj, hf, hq, hi, hc, ha, hs⟩
  · rintro ⟨dev, cs, a, ex, w1, nv, c, w2, w3, w4, hcfg, hj, hf, hq, hi, hc, ha, hs⟩
    subst hcfg
    simp only [changedVLANIDs] at hc
    simp [handleSetInternal, checkAndCleanup, applyAndSave, hj, hf, hq, hi, hc, ha, hs]
  · intro hshape
    cases updatedConfig with
    | device p => exact absurd rfl (hshape p)
    | other => rfl
  · intro p cs e hcfg hj
    subst hcfg
    simp [handleSetInternal, hj]
  · intro p cs hcfg hj hf
    subst hcfg
    simp [handleSetInternal, hj, hf]
  · intro p cs a ex qe w1 hcfg hj hf hq
    subst hcfg
    simp [handleSetInternal, checkAndCleanup, hj, hf, hq]
  · intro dev cs a ex w1 nv c w2 e w3 hcfg hj hf hq hi hc ha
    subst hcfg
    simp only [changedVLANIDs] at hc
    simp [handleSetInternal, checkAndCleanup, applyAndSave, hj, hf, hq, hi, hc, ha]
  · intro dev cs a ex w1 nv c w2 w3 e w4 hcfg hj hf hq hi hc ha hs
    subst hcfg
    simp only [changedVLANIDs] at hc
    simp [handleSetInternal, checkAndCleanup, applyAndSave, hj, hf, hq, hi, hc, ha, hs]

/-! ## Two runs in a row -/

/-- C10, amended: when the device services keep the VLANs of an applied
configuration (`AppliesVLANs`) and a first run of `handleSet` returns nil, a
second run of `handleSet` with the same configuration, started in the world
state the first run left, calls `service.CleanupConfig` with the empty VLAN
list, never calls it with anything else, calls `service.ApplyConfig` only with
`resetIntf = false`, and every call of `syscmd.SaveToFile` it makes has the
folder, file name and text of the successful save of the first run. -/
theorem C10_second_run_no_reset (env : Env σ D A G ρ) (updatedConfig : ValidatedGoStruct D)
    (w : σ) (hfirst : (handleSet env updatedConfig w).1 = none) (hdev : AppliesVLANs env) :
    (∃ res, Event.CleanupConfig env.GetDeviceConfig.ETHINTFName [] res
        ∈ (handleSet env updatedConfig (handleSet env updatedConfig w).2.2).2.1)
      ∧ (∀ i vl res, Event.CleanupConfig i vl res
          ∈ (handleSet env updatedConfig (handleSet env updatedConfig w).2.2).2.1 → vl = [])
      ∧ (∀ a g b e wl res, Event.ApplyConfig a g b e wl res
          ∈ (handleSet env updatedConfig (handleSet env updatedConfig w).2.2).2.1 → b = false)
      ∧ (∃ f n cs, Event.SaveToFile f n cs (.val none) ∈ (handleSet env updatedConfig w).2.1
          ∧ ∀ f2 n2 cs2 res, Event.SaveToFile f2 n2 cs2 res
            ∈ (handleSet env updatedConfig (handleSet env updatedConfig w).2.2).2.1
            → f2 = f ∧ n2 = n ∧ cs2 = cs) := by
  obtain ⟨dev, cs, a, ex, w1, nv, c, w2, w3, w4, hcfg, hj, hf, hq, hi, hc, ha, hs, htr, hw⟩ :=
    success_inv env updatedConfig w (handleSet_nil env updatedConfig w hfirst)
  obtain ⟨ex2, w5, hq2, hsame⟩ := hdev a _ _ _ _ w3 nv cs w4 ha hi hs
  have hch : VLANChanged ex2 nv = false := (VLANChanged_eq_false_iff _ _).2 hsame
  have hcl : changedVLANIDs ex2 nv = [] := by simp [changedVLANIDs, hch]
  have e1 : (handleSet env updatedConfig w).2.1 = (handleSetInternal env updatedConfig w).trace :=
    rfl
  have e2 : (handleSet env updatedConfig w).2.2 = w4 := hw
  rw [e1, e2, htr]
  have e3 : (handleSet env updatedConfig w4).2.1 = (handleSetInternal env updatedConfig w4).trace :=
    rfl
  rw [e3]
  refine ⟨?_, ?_, ?_, env.runFolder, env.apConfigFileName, cs, by simp [saveCall], ?_⟩
  · apply handleSetInternal_elim env updatedConfig w4
      (fun run => ∃ res, Event.CleanupConfig env.GetDeviceConfig.ETHINTFName [] res ∈ run.trace)
    all_goals intros
    all_goals simp_all [trSerialized, trLocated, trQueried, trDetected, trSettled, trApplied,
      applyCall, saveCall]
  · apply handleSetInternal_elim env updatedConfig w4
      (fun run => ∀ i vl res, Event.CleanupConfig i vl res ∈ run.trace → vl = [])
    all_goals intros
    all_goals simp_all [trSerialized, trLocated, trQueried, trDetected, trSettled, trApplied,
      applyCall, saveCall]
  · apply handleSetInternal_elim env updatedConfig w4
      (fun run => ∀ a g b e wl res, Event.ApplyConfig a g b e wl res ∈ run.trace → b = false)
    all_goals intros
    all_goals simp_all [trSerialized, trLocated, trQueried, trDetected, trSettled, trApplied,
      applyCall, saveCall]
  · apply handleSetInternal_elim env updatedConfig w4
      (fun run => ∀ f2 n2 cs2 res, Event.SaveToFile f2 n2 cs2 res ∈ run.trace
        → f2 = env.runFolder ∧ n2 = env.apConfigFileName ∧ cs2 = cs)
    all_goals intros
    all_goals simp_all [trSerialized, trLocated, trQueried, trDetected, trSettled, trApplied,
      applyCall, saveCall]

/-- The demonstration device keeps the VLANs of an applied configuration. -/
theorem demoEnv_appliesVLANs : AppliesVLANs demoEnv := by
  intro a g b wl w w1 nv cs w2 ha hi hs
  simp only [demoEnv, Prod.mk.injEq, Res.val.injEq, true_and] at ha hi hs
  subst ha hi hs
  exact ⟨a, a, rfl, fun v => Iff.rfl⟩

theorem C10_second_run_no_reset_witness :
    (handleSet demoEnv (.device (some [("ap1", [20, 30])])) [10, 20]).1 = none
      ∧ Event.CleanupConfig "eth0" [10, 20] (.val ())
        ∈ (handleSet demoEnv (.device (some [("ap1", [20, 30])])) [10, 20]).2.1
      ∧ (∃ res, Event.CleanupConfig "eth0" [] res
        ∈ (handleSet demoEnv (.device (some [("ap1", [20, 30])]))
            (handleSet demoEnv (.device (some [("ap1", [20, 30])])) [10, 20]).2.2).2.1)
      ∧ (∀ a g b e wl res, Event.ApplyConfig a g b e wl res
          ∈ (handleSet demoEnv (.device (some [("ap1", [20, 30])]))
              (handleSet demoEnv (.device (some [("ap1", [20, 30])])) [10, 20]).2.2).2.1
          → b = false)
      ∧ (∃ f n cs, Event.SaveToFile f n cs (.val none)
          ∈ (handleSet demoEnv (.device (some [("ap1", [20, 30])])) [10, 20]).2.1
          ∧ ∀ f2 n2 cs2 res, Event.SaveToFile f2 n2 cs2 res
            ∈ (handleSet demoEnv (.device (some [("ap1", [20, 30])]))
                (handleSet demoEnv (.device (some [("ap1", [20, 30])])) [10, 20]).2.2).2.1
            → f2 = f ∧ n2 = n ∧ cs2 = cs) :=
  have h := C10_second_run_no_reset demoEnv (.device (some [("ap1", [20, 30])])) [10, 20]
    (by decide) demoEnv_appliesVLANs
  ⟨by decide, by decide, h.1, h.2.2.1, h.2.2.2⟩

/-- C10 as stated does not hold: on a device whose apply service also binds
VLAN 1, the first run of `handleSet` with the configuration {20, 30} returns
nil, and the second run with the same configuration finds the VLANs
{1, 20, 30}, calls `service.CleanupConfig` with that list and calls
`service.ApplyConfig` with `resetIntf = true`. -/
theorem C10_reset_on_second_run :
    (handleSet extraVlanEnv (.device (some [("ap1", [20, 30])])) [10, 20]).1 = none
      ∧ (handleSet extraVlanEnv (.device (some [("ap1", [20, 30])])) [10, 20]).2.2 = [1, 20, 30]
      ∧ handleSet extraVlanEnv (.device (some [("ap1", [20, 30])]))
          (handleSet extraVlanEnv (.device (some [("ap1", [20, 30])])) [10, 20]).2.2
        = (none,
           [.EmitJSON (some [("ap1", [20, 30])]) (.val ("cfg", none)),
            .Info "Received a new configuration:\ncfg\n",
            .FindAPConfig (some [("ap1", [20, 30])]) "ap1" (.val (some [20, 30])),
            .VLANOnIntf "eth0" (.val ([1, 20, 30], none)),
            .VLANIDs [20, 30] (.val [20, 30]),
            .Info "VLAN changes ([1 20 30] -> [20 30]) on interface eth0.",
            .CleanupConfig "eth0" [1, 20, 30] (.val ()),
            .Sleep 5000000000,
            .ApplyConfig [20, 30] () true "eth0" "wlan0" (.val none),
            .Info "Device configuration succeeded.",
            .SaveToFile "/var/run/link022" "link022.conf" "cfg" (.val none),
            .Info "Saved the configuration to file."],
           [1, 20, 30])
      ∧ ¬ (∀ i vl res, Event.CleanupConfig i vl res
          ∈ (handleSet extraVlanEnv (.device (some [("ap1", [20, 30])]))
              (handleSet extraVlanEnv (.device (some [("ap1", [20, 30])])) [10, 20]).2.2).2.1
          → vl = [])
      ∧ ¬ (∀ a g b e wl res, Event.ApplyConfig a g b e wl res
          ∈ (handleSet extraVlanEnv (.device (some [("ap1", [20, 30])]))
              (handleSet extraVlanEnv (.device (some [("ap1", [20, 30])])) [10, 20]).2.2).2.1
          → b = false) := by
  refine ⟨by decide, by decide, rfl, ?_, ?_⟩
  · intro h
    exact absurd (h "eth0" [1, 20, 30] (.val ()) (by decide)) (by decide)
  · intro h
    exact absurd (h [20, 30] () true "eth0" "wlan0" (.val none) (by decide)) (by decide)

/-! ## The two scenarios, evaluated -/

/-- Existing VLANs 10 and 20, desired VLANs 20 and 30 on "eth0": the complete
run of `handleSet` on the demonstration device. -/
theorem scenario_changed_run :
    handleSet demoEnv (.device (some [("ap1", [20, 30])])) [10, 20]
      = (none,
         [.EmitJSON (some [("ap1", [20, 30])]) (.val ("cfg", none)),
          .Info "Received a new configuration:\ncfg\n",
          .FindAPConfig (some [("ap1", [20, 30])]) "ap1" (.val (some [20, 30])),
          .VLANOnIntf "eth0" (.val ([10, 20], none)),
          .VLANIDs [20, 30] (.val [20, 30]),
          .Info "VLAN changes ([10 20] -> [20 30]) on interface eth0.",
          .CleanupConfig "eth0" [10, 20] (.val ()),
          .Sleep 5000000000,
          .ApplyConfig [20, 30] () true "eth0" "wlan0" (.val none),
          .Info "Device configuration succeeded.",
          .SaveToFile "/var/run/link022" "link022.conf" "cfg" (.val none),
          .Info "Saved the configuration to file."],
         [20, 30]) := by
  rfl

/-- Existing VLANs 10 and 20, desired VLANs 20 and 10: no reset. -/
theorem scenario_reordered_run :
    handleSet demoEnv (.device (some [("ap1", [20, 10])])) [10, 20]
      = (none,
         [.EmitJSON (some [("ap1", [20, 10])]) (.val ("cfg", none)),
          .Info "Received a new configuration:\ncfg\n",
          .FindAPConfig (some [("ap1", [20, 10])]) "ap1" (.val (some [20, 10])),
          .VLANOnIntf "eth0" (.val ([10, 20], none)),
          .VLANIDs [20, 10] (.val [20, 10]),
          .Info "No VLAN change on interface eth0.",
          .CleanupConfig "eth0" [] (.val ()),
          .Sleep 5000000000,
          .ApplyConfig [20, 10] () false "eth0" "wlan0" (.val none),
          .Info "Device configuration succeeded.",
          .SaveToFile "/var/run/link022" "link022.conf" "cfg" (.val none),
          .Info "Saved the configuration to file."],
         [20, 10]) := by
  rfl

/-- A nil `*ocstruct.Device` that the collaborators accept makes the run
fault at `officeAPs.Gasket`, after cleanup and the settle wait; `handleSet`
reports it as an error. -/
theorem scenario_nil_device :
    (handleSet { demoEnv with FindAPConfig := fun _ _ => .val (some [10, 20]) }
        (.device none) [10, 20]).1
      = some ⟨"panic detected when handling updated config: "
          ++ "runtime error: invalid memory address or nil pointer dereference"⟩ := by
  decide

end Claims

end Link022
